import Mathlib

/-!
Shallow embedding of the ChineseLangHelper repository (Python) for checking
its specification.  The embedding covers the data model (src/models/word.py,
src/models/lesson.py), the lesson persistence service
(src/services/lesson_manager_service.py) and the coordination flows of
src/controllers/controllers.py that the claims mention.

Python values stored in the data records are modelled by the JSON-like
inductive `JValue` (the records only ever hold values that came from JSON
files or from string literals).  Python exceptions are modelled by `PyError`
and fallible operations return `Except PyError _`.  File contents are
modelled explicitly: a file is either missing, present but not valid JSON,
or present with a parsed JSON value.
-/

namespace ChineseLangHelper

/-- A JSON-like Python value.  Numbers are modelled as integers: no flow in
the claims depends on float semantics.  An `obj` models a Python dict whose
keys are distinct (the dicts in the modelled flows come from `json.load`,
which keeps the last binding of a repeated key, or from dict literals with
distinct keys). -/
inductive JValue where
  | str (s : String)
  | num (n : Int)
  | bool (b : Bool)
  | null
  | arr (elems : List JValue)
  | obj (entries : List (String × JValue))
  deriving Repr

mutual

/-- Structural equality on `JValue`, decidable and kernel-reducible.
Matches Python `==` on the values the modelled flows compare (the flows
only ever compare strings). -/
def JValue.decEq : (a b : JValue) → Decidable (a = b)
  | .str a, .str b =>
    if h : a = b then isTrue (by rw [h]) else isFalse (fun hh => h (JValue.str.inj hh))
  | .num a, .num b =>
    if h : a = b then isTrue (by rw [h]) else isFalse (fun hh => h (JValue.num.inj hh))
  | .bool a, .bool b =>
    if h : a = b then isTrue (by rw [h]) else isFalse (fun hh => h (JValue.bool.inj hh))
  | .null, .null => isTrue rfl
  | .arr xs, .arr ys =>
    match decEqL xs ys with
    | isTrue h => isTrue (by rw [h])
    | isFalse h => isFalse (fun hh => h (JValue.arr.inj hh))
  | .obj xs, .obj ys =>
    match decEqO xs ys with
    | isTrue h => isTrue (by rw [h])
    | isFalse h => isFalse (fun hh => h (JValue.obj.inj hh))
  | .str _, .num _ => isFalse (fun h => JValue.noConfusion h)
  | .str _, .bool _ => isFalse (fun h => JValue.noConfusion h)
  | .str _, .null => isFalse (fun h => JValue.noConfusion h)
  | .str _, .arr _ => isFalse (fun h => JValue.noConfusion h)
  | .str _, .obj _ => isFalse (fun h => JValue.noConfusion h)
  | .num _, .str _ => isFalse (fun h => JValue.noConfusion h)
  | .num _, .bool _ => isFalse (fun h => JValue.noConfusion h)
  | .num _, .null => isFalse (fun h => JValue.noConfusion h)
  | .num _, .arr _ => isFalse (fun h => JValue.noConfusion h)
  | .num _, .obj _ => isFalse (fun h => JValue.noConfusion h)
  | .bool _, .str _ => isFalse (fun h => JValue.noConfusion h)
  | .bool _, .num _ => isFalse (fun h => JValue.noConfusion h)
  | .bool _, .null => isFalse (fun h => JValue.noConfusion h)
  | .bool _, .arr _ => isFalse (fun h => JValue.noConfusion h)
  | .bool _, .obj _ => isFalse (fun h => JValue.noConfusion h)
  | .null, .str _ => isFalse (fun h => JValue.noConfusion h)
  | .null, .num _ => isFalse (fun h => JValue.noConfusion h)
  | .null, .bool _ => isFalse (fun h => JValue.noConfusion h)
  | .null, .arr _ => isFalse (fun h => JValue.noConfusion h)
  | .null, .obj _ => isFalse (fun h => JValue.noConfusion h)
  | .arr _, .str _ => isFalse (fun h => JValue.noConfusion h)
  | .arr _, .num _ => isFalse (fun h => JValue.noConfusion h)
  | .arr _, .bool _ => isFalse (fun h => JValue.noConfusion h)
  | .arr _, .null => isFalse (fun h => JValue.noConfusion h)
  | .arr _, .obj _ => isFalse (fun h => JValue.noConfusion h)
  | .obj _, .str _ => isFalse (fun h => JValue.noConfusion h)
  | .obj _, .num _ => isFalse (fun h => JValue.noConfusion h)
  | .obj _, .bool _ => isFalse (fun h => JValue.noConfusion h)
  | .obj _, .null => isFalse (fun h => JValue.noConfusion h)
  | .obj _, .arr _ => isFalse (fun h => JValue.noConfusion h)

/-- Decidable equality of lists of values. -/
def decEqL : (xs ys : List JValue) → Decidable (xs = ys)
  | [], [] => isTrue rfl
  | [], _ :: _ => isFalse (fun h => List.noConfusion h)
  | _ :: _, [] => isFalse (fun h => List.noConfusion h)
  | x :: xs, y :: ys =>
    match JValue.decEq x y, decEqL xs ys with
    | isTrue h1, isTrue h2 => isTrue (by rw [h1, h2])
    | isFalse h1, _ => isFalse (fun h => h1 (List.cons.inj h).1)
    | _, isFalse h2 => isFalse (fun h => h2 (List.cons.inj h).2)

/-- Decidable equality of key-value entry lists. -/
def decEqO : (xs ys : List (String × JValue)) → Decidable (xs = ys)
  | [], [] => isTrue rfl
  | [], _ :: _ => isFalse (fun h => List.noConfusion h)
  | _ :: _, [] => isFalse (fun h => List.noConfusion h)
  | (k, v) :: xs, (l, w) :: ys =>
    if hk : k = l then
      match JValue.decEq v w, decEqO xs ys with
      | isTrue h1, isTrue h2 => isTrue (by rw [hk, h1, h2])
      | isFalse h1, _ => isFalse (fun h => h1 (Prod.mk.inj (List.cons.inj h).1).2)
      | _, isFalse h2 => isFalse (fun h => h2 (List.cons.inj h).2)
    else isFalse (fun h => hk (Prod.mk.inj (List.cons.inj h).1).1)

end

instance : DecidableEq JValue := JValue.decEq

/-- A Python dict with string keys, as an association list with distinct keys. -/
abbrev Dict := List (String × JValue)

/-- Python `d.get(k, default)` on a dict with distinct keys. -/
def dget (d : Dict) (k : String) (default : JValue) : JValue :=
  (List.lookup k d).getD default

/-- Python truthiness (`bool(v)`) of a `JValue`. -/
def JValue.truthy : JValue → Bool
  | .str s => !s.isEmpty
  | .num n => n != 0
  | .bool b => b
  | .null => false
  | .arr l => !l.isEmpty
  | .obj l => !l.isEmpty

/-- The Python exceptions raised by the modelled code. -/
inductive PyError where
  | typeError
  | keyError
  | attributeError
  | ioError
  | valueError
  deriving Repr, DecidableEq

/-- Python `len(v)`; raises `TypeError` on values with no length. -/
def pyLen : JValue → Except PyError Nat
  | .str s => .ok s.length
  | .arr l => .ok l.length
  | .obj l => .ok l.length
  | _ => .error .typeError

/-- src/models/word.py: the `Word` dataclass.  The fields are annotated
`str` in the source; at runtime they hold whatever value `from_dict` read
from the file, hence `JValue`. -/
structure Word where
  chinese : JValue
  pinyin : JValue
  english : JValue
  deriving Repr, DecidableEq

/-- `Word.to_dict`: `asdict(self)` is the dict of the three fields. -/
def Word.to_dict (w : Word) : Dict :=
  [("chinese", w.chinese), ("pinyin", w.pinyin), ("english", w.english)]

/-- `Word.from_dict`: `data.get` with empty-string defaults; total on dicts. -/
def Word.from_dict (data : Dict) : Word :=
  { chinese := dget data "chinese" (.str "")
    pinyin := dget data "pinyin" (.str "")
    english := dget data "english" (.str "") }

/-- src/models/lesson.py: the `Lesson` dataclass.  `is_valid_json` is a
required field with no default; `filename` defaults to `None`.  Like the
`Word` fields, `name`, `description` and `is_valid_json` hold whatever
value `from_dict` read from the file. -/
structure Lesson where
  name : JValue
  description : JValue
  words : List Word
  is_valid_json : JValue
  filename : Option String
  deriving Repr, DecidableEq

/-- A call of the Python dataclass constructor `Lesson(...)`.  An argument
the call site does not pass is `none`; a call that omits one of the four
required fields (`name`, `description`, `words`, `is_valid_json`) raises
`TypeError`.  The dict-to-Word conversion of `__post_init__` is the
identity at every modelled call site, because each one passes a list of
`Word` objects. -/
def LessonCall (name description : Option JValue) (words : Option (List Word))
    (is_valid_json : Option JValue) (filename : Option String) :
    Except PyError Lesson :=
  match name, description, words, is_valid_json with
  | some n, some d, some w, some v =>
      .ok { name := n, description := d, words := w, is_valid_json := v,
            filename := filename }
  | _, _, _, _ => .error .typeError

/-- The list comprehension `[Word.from_dict(word_data) for word_data in
words_data]` of `Lesson.from_dict`, applied to the value found under the
`words` key.  Iterating a non-sequence raises `TypeError`; calling `.get`
on a non-dict element raises `AttributeError` (a non-empty string iterates
its one-character strings, a non-empty dict iterates its string keys, and
each of those also lacks `.get`). -/
def wordList : List JValue → Except PyError (List Dict)
  | [] => .ok []
  | .obj kvs :: rest =>
      match wordList rest with
      | .ok ds => .ok (kvs :: ds)
      | .error e => .error e
  | _ :: _ => .error .attributeError

/-- The value found under the `words` key, as iterated by the
comprehension: a list iterates its elements, a string its characters, a
dict its keys, anything else raises `TypeError`. -/
def wordArg : JValue → Except PyError (List Dict)
  | .arr l => wordList l
  | .str s => if s.isEmpty then .ok [] else .error .attributeError
  | .obj kvs => if kvs.isEmpty then .ok [] else .error .attributeError
  | _ => .error .typeError

/-- `Lesson.from_dict`: reads `words` (default empty list), converts each
entry with `Word.from_dict`, then calls the constructor with every field
passed, so the constructor call itself cannot raise.  `name` defaults to
the string `Unknown Lesson`, `description` to the empty string, and
`is_valid_json` to `True`. -/
def Lesson.from_dict (data : Dict) (filename : Option String) :
    Except PyError Lesson :=
  match wordArg (dget data "words" (.arr [])) with
  | .error e => .error e
  | .ok ds =>
      .ok { name := dget data "name" (.str "Unknown Lesson")
            description := dget data "description" (.str "")
            words := ds.map Word.from_dict
            is_valid_json := dget data "is_valid_json" (.bool true)
            filename := filename }

/-- The content of one file of the data folder, as seen by the service. -/
inductive FileContent where
  | missing
  | invalid
  | json (v : JValue)
  deriving Repr, DecidableEq

/-- `Lesson.from_file`: opening a missing file raises; `json.load` raises
on invalid content; `data["is_valid_json"]` raises `KeyError` when the key
is absent and `TypeError` when the parsed value is not a dict; when the
value under the key is falsy the method returns `None`; otherwise it
returns `from_dict(data, basename)`. -/
def Lesson.from_file (fc : FileContent) (filename : String) :
    Except PyError (Option Lesson) :=
  match fc with
  | .missing => .error .ioError
  | .invalid => .error .valueError
  | .json (.obj kvs) =>
      match List.lookup "is_valid_json" kvs with
      | none => .error .keyError
      | some b =>
          if b.truthy then
            match Lesson.from_dict kvs (some filename) with
            | .error e => .error e
            | .ok l => .ok (some l)
          else .ok none
  | .json _ => .error .typeError

/-- `Lesson.to_dict`: the dict literal with the four keys, in order. -/
def Lesson.to_dict (l : Lesson) : Dict :=
  [("name", l.name), ("description", l.description),
   ("words", .arr (l.words.map (fun w => .obj w.to_dict))),
   ("is_valid_json", l.is_valid_json)]

/-- `Lesson.add_word`: returns `False` without mutation when a word with
the same `chinese` value is present, otherwise appends and returns `True`.
The result pairs the updated lesson with the returned flag. -/
def Lesson.add_word (l : Lesson) (w : Word) : Lesson × Bool :=
  if l.words.any (fun x => decide (x.chinese = w.chinese)) then (l, false)
  else ({ l with words := l.words ++ [w] }, true)

/-- The loop of `Lesson.remove_word`: pops the first word whose `chinese`
field equals the key and reports whether one was found. -/
def removeFirst (ws : List Word) (k : String) : List Word × Bool :=
  match ws with
  | [] => ([], false)
  | w :: rest =>
      if w.chinese = .str k then (rest, true)
      else
        let r := removeFirst rest k
        (w :: r.1, r.2)

/-- `Lesson.remove_word`: removes the first word with the given `chinese`
key; returns `True` exactly when one was found. -/
def Lesson.remove_word (l : Lesson) (k : String) : Lesson × Bool :=
  let r := removeFirst l.words k
  ({ l with words := r.1 }, r.2)

namespace LessonManager

/-- The filename derivation of `save_lesson`: keep only characters that are
alphanumeric or in `{space, hyphen, underscore}`, strip surrounding spaces
(`.strip()`; after the filter the only whitespace left is the space
character), replace spaces by underscores, lower-case, append `.json`.
`Char.isAlphanum` and `Char.toLower` are ASCII; the names in the modelled
flows are ASCII. -/
def derive_filename (name : String) : String :=
  let kept := name.toList.filter (fun c => c.isAlphanum || c = ' ' || c = '-' || c = '_')
  let trimmed := ((kept.dropWhile (· = ' ')).reverse.dropWhile (· = ' ')).reverse
  let replaced := trimmed.map (fun c => if c = ' ' then '_' else c)
  String.mk (replaced.map Char.toLower) ++ ".json"

/-- Python truthiness of the `Optional[str]` filename field: `None` and the
empty string are falsy. -/
def falsyFilename : Option String → Bool
  | none => true
  | some s => s.isEmpty

/-- The derivation step of `save_lesson` when the lesson has no usable
filename: iterating a non-string `lesson.name` raises `TypeError`, and the
comprehension sits outside the `try` block, so the exception propagates. -/
def deriveStep (lesson : Lesson) : Except PyError Lesson :=
  match lesson.name with
  | .str s => .ok { lesson with filename := some (derive_filename s) }
  | _ => .error .typeError

/-- `LessonManager.save_lesson(lesson, filename)`.  `writeOk` stands for
the outcome of the file write, which depends on the external file system.
The result is the lesson as left in memory (the filename field may have
been assigned) together with the returned success flag; only the write is
inside the `try` block. -/
def save_lesson (writeOk : Bool) (lesson : Lesson) (filename : Option String) :
    Except PyError (Lesson × Bool) :=
  let step1 : Except PyError Lesson :=
    match filename with
    | some f =>
        if !f.isEmpty then .ok { lesson with filename := some f }
        else if falsyFilename lesson.filename then deriveStep lesson
        else .ok lesson
    | none =>
        if falsyFilename lesson.filename then deriveStep lesson
        else .ok lesson
  match step1 with
  | .error e => .error e
  | .ok l2 => .ok (l2, writeOk)

/-- `LessonManager.load_lesson`: wraps `Lesson.from_file` in a `try` that
turns every exception into `None`.  Note that a falsy `is_valid_json`
field also yields `None`, without an exception. -/
def load_lesson (fc : FileContent) (filename : String) : Option Lesson :=
  match Lesson.from_file fc filename with
  | .ok r => r
  | .error _ => none

/-- The listing summary returned by `get_lesson_info`.  The Python record
also embeds human-readable message strings (`description`, `error`); the
model keeps the exception kind instead of its message text. -/
structure LessonInfo where
  filename : String
  name : JValue
  word_count : Nat
  valid : Bool
  err : Option PyError
  deriving Repr, DecidableEq

/-- The `except` branch of `get_lesson_info`. -/
def errInfo (filename : String) (e : PyError) : LessonInfo :=
  { filename := filename, name := .str (filename.replace ".json" ""),
    word_count := 0, valid := false, err := some e }

/-- `LessonManager.get_lesson_info`: parses the file and builds a summary
from `data.get` calls; any exception (unreadable file, invalid JSON,
`.get` on a non-dict, `len` of a length-less `words` value) is converted
into an invalid summary.  The `is_valid_json` field is never consulted. -/
def get_lesson_info (fc : FileContent) (filename : String) : LessonInfo :=
  match fc with
  | .missing => errInfo filename .ioError
  | .invalid => errInfo filename .valueError
  | .json (.obj kvs) =>
      match pyLen (dget kvs "words" (.arr [])) with
      | .ok n =>
          { filename := filename,
            name := dget kvs "name" (.str (filename.replace ".json" "")),
            word_count := n, valid := true, err := none }
      | .error e => errInfo filename e
  | .json _ => errInfo filename .attributeError

/-- `LessonManager.create_new_lesson(name, description)`: the constructor
call `Lesson(name=name, description=description, words=[])` omits the
required `is_valid_json` field. -/
def create_new_lesson (name description : String) : Except PyError Lesson :=
  LessonCall (some (.str name)) (some (.str description)) (some []) none none

/-- The word list of `_create_sample_lesson`. -/
def sample_words : List Word :=
  [{ chinese := .str "你好", pinyin := .str "nǐ hǎo", english := .str "hello" },
   { chinese := .str "谢谢", pinyin := .str "xiè xiè", english := .str "thank you" },
   { chinese := .str "再见", pinyin := .str "zài jiàn", english := .str "goodbye" },
   { chinese := .str "对不起", pinyin := .str "duì bù qǐ", english := .str "sorry" },
   { chinese := .str "不客气", pinyin := .str "bù kè qì", english := .str "you are welcome" },
   { chinese := .str "早上好", pinyin := .str "zǎo shàng hǎo", english := .str "good morning" }]

/-- `_create_sample_lesson`: constructs the sample `Lesson` (again without
`is_valid_json`) and, were that to succeed, would write its `to_dict`
serialization to `basic_greetings.json`. -/
def create_sample_lesson : Except PyError (String × JValue) :=
  match LessonCall (some (.str "Basic Greetings"))
      (some (.str "Common Chinese greetings and polite expressions"))
      (some sample_words) none none with
  | .error e => .error e
  | .ok l => .ok ("basic_greetings.json", .obj l.to_dict)

/-- The state of the data folder: whether the directory exists and the
files it holds. -/
structure DataFolder where
  present : Bool
  files : List (String × FileContent)
  deriving Repr, DecidableEq

/-- `ensure_data_folder_exists`, called by `LessonManager.__init__`: when
the directory is absent, `os.makedirs` creates it and then
`_create_sample_lesson` runs; an exception thrown there propagates out of
the constructor, after the directory was already created. -/
def ensure_data_folder_exists (df : DataFolder) :
    DataFolder × Except PyError Unit :=
  if df.present then (df, .ok ())
  else
    let df1 := { df with present := true }
    match create_sample_lesson with
    | .error e => (df1, .error e)
    | .ok fcontent => ({ df1 with files := df1.files ++ [(fcontent.1, .json fcontent.2)] }, .ok ())

end LessonManager

namespace MainController

/-- `ChineseService.validate_chinese_text`: rejects input that is empty or
whitespace-only, accepts everything else. -/
def validate_chinese_text (text : String) : Bool :=
  !(text.isEmpty || text.trim.isEmpty)

/-- `ChineseService.create_word_from_chinese`: builds the `Word` from the
text and the strings produced by the external pinyin and translation
collaborators, here abstracted as the functions `p` and `t` (both are
total in the source: every internal failure is converted into a
placeholder string). -/
def create_word_from_chinese (p t : String → String) (text : String) : Word :=
  { chinese := .str text, pinyin := .str (p text), english := .str (t text) }

/-- The outcome reported back to the view by the add-word flow. -/
inductive AWOutcome where
  | noLesson
  | invalidInput
  | duplicate
  | addFailed
  | saveFailed
  | added (w : Word)
  | raised (e : PyError)
  deriving Repr, DecidableEq

/-- `MainController.add_word_to_lesson`: the state passed in and returned
is `current_lesson`.  Validation failure, a duplicate, and an `add_word`
refusal leave the state untouched; on a failed save the appended word is
removed again by `remove_word`; an exception escaping `save_lesson` (only
possible when the lesson has no usable filename and a non-string name)
leaves the appended word in place. -/
def add_word_to_lesson (p t : String → String) (writeOk : Bool)
    (cur : Option Lesson) (text : String) : Option Lesson × AWOutcome :=
  match cur with
  | none => (none, .noLesson)
  | some L =>
      if !validate_chinese_text text then (some L, .invalidInput)
      else if L.words.any (fun w => decide (w.chinese = .str text)) then
        (some L, .duplicate)
      else
        let nw := create_word_from_chinese p t text
        let step := L.add_word nw
        if !step.2 then (some step.1, .addFailed)
        else
          match LessonManager.save_lesson writeOk step.1 none with
          | .error e => (some step.1, .raised e)
          | .ok (L2, true) => (some L2, .added nw)
          | .ok (L2, false) =>
              let r := L2.remove_word text
              (some r.1, .saveFailed)

/-- The filename computed inline by `MainController.add_new_lesson`:
`name.lower().replace(' ', '_') + ".json"`, with no character filtering.
Replacing the one-character pattern is a character map; lower-casing maps
no character to a space, so the two maps compose pointwise. -/
def controller_filename (name : String) : String :=
  String.mk (name.toList.map (fun c =>
    if c.toLower = ' ' then '_' else c.toLower)) ++ ".json"

/-- The outcome of the create-lesson flow. -/
inductive ANOutcome where
  | created (filename : String) (content : Dict)
  | saveRefused
  | errorDialog (e : PyError)
  deriving Repr, DecidableEq

/-- `MainController.add_new_lesson`: constructs the lesson (the call omits
`is_valid_json`), sets `filename` from `controller_filename`, saves, and
converts any exception of the `try` block into an error dialog. -/
def add_new_lesson (writeOk : Bool) (name description : String) : ANOutcome :=
  match LessonCall (some (.str name)) (some (.str description)) (some []) none none with
  | .error e => .errorDialog e
  | .ok l =>
      let l1 := { l with filename := some (controller_filename name) }
      match LessonManager.save_lesson writeOk l1 none with
      | .error e => .errorDialog e
      | .ok (l2, true) => .created (l2.filename.getD "") l2.to_dict
      | .ok (_, false) => .saveRefused

end MainController

/-- The uniqueness invariant claimed for a lesson word list: no two entries
share the same `chinese` value. -/
def uniqueKeys (ws : List Word) : Prop :=
  ws.Pairwise (fun a b => a.chinese ≠ b.chinese)

instance (ws : List Word) : Decidable (uniqueKeys ws) :=
  List.instDecidablePairwise ws

/-! ### Helper lemmas -/

theorem removeFirst_flag (ws : List Word) (k : String) :
    (removeFirst ws k).2 = true ↔ ∃ w ∈ ws, w.chinese = .str k := by
  induction ws with
  | nil => simp [removeFirst]
  | cons w rest ih =>
      by_cases h : w.chinese = JValue.str k
      · simp [removeFirst, h]
      · simp [removeFirst, h, ih]

theorem removeFirst_sublist (ws : List Word) (k : String) :
    (removeFirst ws k).1.Sublist ws := by
  induction ws with
  | nil => simp [removeFirst]
  | cons w rest ih =>
      by_cases h : w.chinese = JValue.str k
      · simp [removeFirst, h]
      · simpa [removeFirst, h] using ih.cons₂ w

theorem removeFirst_clears (ws : List Word) (k : String)
    (h : ws.countP (fun w => decide (w.chinese = JValue.str k)) ≤ 1) :
    ∀ w ∈ (removeFirst ws k).1, w.chinese ≠ .str k := by
  induction ws with
  | nil => simp [removeFirst]
  | cons w rest ih =>
      by_cases hw : w.chinese = JValue.str k
      · simp only [removeFirst, if_pos hw]
        have h0 : rest.countP (fun w => decide (w.chinese = JValue.str k)) = 0 := by
          rw [List.countP_cons] at h
          simp only [hw, decide_True, if_true] at h
          omega
        intro x hx
        have := List.countP_eq_zero.mp h0 x hx
        simpa using this
      · simp only [removeFirst, if_neg hw]
        intro x hx
        rcases List.mem_cons.mp hx with rfl | hx2
        · exact hw
        · refine ih ?_ x hx2
          simpa [List.countP_cons, hw] using h

theorem removeFirst_append_unmatched (ws : List Word) (nw : Word) (k : String)
    (h : ∀ w ∈ ws, w.chinese ≠ JValue.str k) (hnw : nw.chinese = JValue.str k) :
    removeFirst (ws ++ [nw]) k = (ws, true) := by
  induction ws with
  | nil => simp [removeFirst, hnw]
  | cons w rest ih =>
      have hw : w.chinese ≠ JValue.str k := h w (List.mem_cons_self w rest)
      have ih2 := ih (fun x hx => h x (List.mem_cons_of_mem w hx))
      simp [removeFirst, hw, ih2]

theorem wordList_map_to_dict (ws : List Word) :
    wordList (ws.map (fun w => .obj w.to_dict)) = .ok (ws.map Word.to_dict) := by
  induction ws with
  | nil => rfl
  | cons w rest ih => simp [wordList, ih]

/-! ### Claims -/

/-- C1: the claim states that `create_new_lesson(name, description)` returns
a `Lesson` for every input without raising.  In the code the constructor
call omits the required `is_valid_json` dataclass field, so the call raises
`TypeError` for every input. -/
theorem c1_create_new_lesson_always_raises (name description : String) :
    LessonManager.create_new_lesson name description = .error .typeError :=
  rfl

/-- C2: the claim states that constructing the manager over an absent data
folder succeeds, creates the folder and writes one sample lesson file.  In
the code `_create_sample_lesson` constructs a `Lesson` without the required
`is_valid_json` field, so after the folder is created a `TypeError`
propagates out of the constructor and no sample file is written. -/
theorem c2_first_run_seeding_raises (df : LessonManager.DataFolder)
    (h : df.present = false) :
    LessonManager.ensure_data_folder_exists df =
      ({ df with present := true }, .error .typeError) := by
  unfold LessonManager.ensure_data_folder_exists
  rw [h]
  rfl

/-- Witness for C2 at the empty absent folder. -/
theorem c2_witness :
    LessonManager.ensure_data_folder_exists { present := false, files := [] } =
      ({ present := true, files := [] }, .error .typeError) :=
  c2_first_run_seeding_raises { present := false, files := [] } rfl

/-- C4: the claim states that creating a lesson named `Basic Greetings!!`
through the create-lesson flow persists a file whose name was derived by
the sanitizing rule.  In the code the flow raises `TypeError` at the
`Lesson` construction (caught and turned into an error dialog), so nothing
is persisted for any write outcome; moreover the flow computes its
filename inline without stripping non-alphanumerics, so even with the
construction repaired it would use `basic_greetings!!.json`.  The
sanitizing derivation of `save_lesson` does produce
`basic_greetings.json`, as the spec describes. -/
theorem c4_create_lesson_flow_broken :
    (∀ writeOk : Bool, MainController.add_new_lesson writeOk "Basic Greetings!!" "" =
      .errorDialog .typeError) ∧
    MainController.controller_filename "Basic Greetings!!" = "basic_greetings!!.json" ∧
    LessonManager.derive_filename "Basic Greetings!!" = "basic_greetings.json" :=
  ⟨fun _ => rfl, by decide, by decide⟩

/-- C10: a file whose JSON object lacks the `is_valid_json` key is reported
by the listing summary as `valid = true` with its word count, while
`load_lesson` on the same content returns `None`. -/
theorem c10_valid_summary_but_unloadable :
    (LessonManager.get_lesson_info
        (.json (.obj [("name", .str "Broken"),
          ("words", .arr [.obj [("chinese", .str "一")]])])) "broken.json").valid = true ∧
    (LessonManager.get_lesson_info
        (.json (.obj [("name", .str "Broken"),
          ("words", .arr [.obj [("chinese", .str "一")]])])) "broken.json").word_count = 1 ∧
    LessonManager.load_lesson
        (.json (.obj [("name", .str "Broken"),
          ("words", .arr [.obj [("chinese", .str "一")]])])) "broken.json" = none :=
  ⟨rfl, rfl, rfl⟩

/-- C3 counterexample: a file holding a well-formed JSON object in the
documented storage layout (`name`, `description`, `words`; no
`is_valid_json` key), on which the claim says `load` returns a `Lesson`;
the code raises `KeyError` inside `from_file` and `load_lesson` returns
`None`. -/
theorem c3_counterexample :
    LessonManager.load_lesson
      (.json (.obj [("name", .str "Basic"), ("description", .str "d"),
        ("words", .arr [.obj [("chinese", .str "你好"), ("pinyin", .str "ni hao"),
          ("english", .str "hello")]])])) "basic.json" = none :=
  rfl

/-- C3 amended: `load` returns `None` when the file is missing, unreadable
or not valid structured data, and on a well-formed JSON object it returns
a `Lesson` exactly when the `is_valid_json` entry is present and truthy
and the `words` entry (defaulting to the empty list) is iterable into
dicts; in particular a documented-layout object without `is_valid_json`
also yields `None`. -/
theorem c3_load_characterization (kvs : Dict) (fn : String) :
    LessonManager.load_lesson .missing fn = none ∧
    LessonManager.load_lesson .invalid fn = none ∧
    ((∃ L, LessonManager.load_lesson (.json (.obj kvs)) fn = some L) ↔
      ∃ b ds, List.lookup "is_valid_json" kvs = some b ∧ b.truthy = true ∧
        wordArg (dget kvs "words" (.arr [])) = .ok ds) := by
  refine ⟨rfl, rfl, ?_⟩
  unfold LessonManager.load_lesson Lesson.from_file
  cases hb : List.lookup "is_valid_json" kvs with
  | none => simp [hb]
  | some b =>
      by_cases ht : b.truthy
      · simp only [hb, ht, if_true]
        unfold Lesson.from_dict
        cases hW : wordArg (dget kvs "words" (.arr [])) with
        | error e => simp [hb, ht, hW]
        | ok ds => simp [hb, ht, hW]
      · simp [hb, ht]

/-- Witness for C3 at a loadable file. -/
theorem c3_witness :
    ∃ L, LessonManager.load_lesson
      (.json (.obj [("is_valid_json", .bool true)])) "f.json" = some L :=
  (c3_load_characterization [("is_valid_json", .bool true)] "f.json").2.2.mpr
    ⟨.bool true, [], rfl, rfl, rfl⟩

/-- C6 counterexample: on the empty mapping `from_map` defaults the lesson
name to the string `Unknown Lesson`, not to empty text as the claim
states. -/
theorem c6_counterexample :
    Lesson.from_dict [] none =
      .ok { name := .str "Unknown Lesson", description := .str "", words := [],
            is_valid_json := .bool true, filename := none } ∧
    JValue.str "Unknown Lesson" ≠ JValue.str "" :=
  ⟨rfl, by decide⟩

/-- C6 amended: `Word.from_map` never fails and fills missing `chinese`,
`pinyin`, `english` with empty text; `Lesson.from_map` never fails on
account of missing keys and fills a missing `words` with the empty
sequence, a missing `description` with empty text, a missing
`is_valid_json` with `True`, and a missing `name` with the text
`Unknown Lesson` (not empty text). -/
theorem c6_defaults (wd kvs : Dict) :
    (List.lookup "chinese" wd = none → (Word.from_dict wd).chinese = .str "") ∧
    (List.lookup "pinyin" wd = none → (Word.from_dict wd).pinyin = .str "") ∧
    (List.lookup "english" wd = none → (Word.from_dict wd).english = .str "") ∧
    (List.lookup "words" kvs = none →
      ∃ l, Lesson.from_dict kvs none = .ok l ∧ l.words = [] ∧
        (List.lookup "name" kvs = none → l.name = .str "Unknown Lesson") ∧
        (List.lookup "description" kvs = none → l.description = .str "") ∧
        (List.lookup "is_valid_json" kvs = none → l.is_valid_json = .bool true)) := by
  refine ⟨?_, ?_, ?_, ?_⟩
  · intro h; simp [Word.from_dict, dget, h]
  · intro h; simp [Word.from_dict, dget, h]
  · intro h; simp [Word.from_dict, dget, h]
  · intro h
    refine ⟨{ name := dget kvs "name" (.str "Unknown Lesson"),
              description := dget kvs "description" (.str ""), words := [],
              is_valid_json := dget kvs "is_valid_json" (.bool true),
              filename := none }, ?_, rfl, ?_, ?_, ?_⟩
    · unfold Lesson.from_dict
      have hW : wordArg (dget kvs "words" (.arr [])) = .ok [] := by
        simp [dget, h, wordArg, wordList]
      rw [hW]
      rfl
    · intro hn; simp [dget, hn]
    · intro hd; simp [dget, hd]
    · intro hv; simp [dget, hv]

/-- Witness for C6 at the empty mappings. -/
theorem c6_witness :
    (Word.from_dict []).chinese = .str "" ∧
    (∃ l, Lesson.from_dict [] none = .ok l ∧ l.words = [] ∧
      (List.lookup "name" ([] : Dict) = none → l.name = .str "Unknown Lesson") ∧
      (List.lookup "description" ([] : Dict) = none → l.description = .str "") ∧
      (List.lookup "is_valid_json" ([] : Dict) = none → l.is_valid_json = .bool true)) :=
  ⟨(c6_defaults [] []).1 rfl, (c6_defaults [] []).2.2.2 rfl⟩

/-- C5 counterexample: a lesson whose word list repeats a `chinese` key
(obtainable through `from_map`); `remove_word` returns `True` but a word
with that key remains afterwards, against the claim. -/
theorem c5_counterexample :
    ((Lesson.remove_word
      { name := .str "L", description := .str "", words :=
          [{ chinese := .str "a", pinyin := .str "", english := .str "" },
           { chinese := .str "a", pinyin := .str "p", english := .str "q" }],
        is_valid_json := .bool true, filename := none } "a").2 = true) ∧
    ∃ w ∈ (Lesson.remove_word
      { name := .str "L", description := .str "", words :=
          [{ chinese := .str "a", pinyin := .str "", english := .str "" },
           { chinese := .str "a", pinyin := .str "p", english := .str "q" }],
        is_valid_json := .bool true, filename := none } "a").1.words,
      w.chinese = .str "a" := by
  refine ⟨rfl, ?_⟩
  decide

/-- C5 amended: `remove_word(k)` returns true iff a word with key `k`
existed; it removes only the first match, so no word with key `k` remains
afterwards provided the lesson held at most one word with that key (as the
uniqueness invariant of the spec intends). -/
theorem c5_remove_word (L : Lesson) (k : String)
    (h : L.words.countP (fun w => decide (w.chinese = JValue.str k)) ≤ 1) :
    ((L.remove_word k).2 = true ↔ ∃ w ∈ L.words, w.chinese = .str k) ∧
    ∀ w ∈ (L.remove_word k).1.words, w.chinese ≠ .str k := by
  refine ⟨removeFirst_flag L.words k, ?_⟩
  intro w hw
  exact removeFirst_clears L.words k h w hw

/-- Witness for C5 at a one-word lesson. -/
theorem c5_witness :
    (Lesson.remove_word
      { name := .str "L", description := .str "", words :=
          [{ chinese := .str "a", pinyin := .str "", english := .str "" }],
        is_valid_json := .bool true, filename := none } "a").2 = true :=
  (c5_remove_word
    { name := .str "L", description := .str "", words :=
        [{ chinese := .str "a", pinyin := .str "", english := .str "" }],
      is_valid_json := .bool true, filename := none } "a" (by decide)).1.mpr
    ⟨_, List.mem_singleton_self _, rfl⟩

/-- C7 counterexample: `from_map` establishes no uniqueness: a mapping
whose words sequence repeats a `chinese` value yields a lesson violating
the claimed invariant. -/
theorem c7_counterexample :
    ∃ l, Lesson.from_dict
        [("words", .arr [.obj [("chinese", .str "你好")],
                         .obj [("chinese", .str "你好")]])] none = .ok l ∧
      ¬ uniqueKeys l.words :=
  ⟨_, rfl, by decide⟩

/-- C7 amended: `add_word` and `remove_word` preserve the uniqueness of
`chinese` keys, but `from_map` does not establish it, so the invariant
only holds for lessons built from mappings without repeated keys. -/
theorem c7_preservation (L : Lesson) (w : Word) (k : String)
    (h : uniqueKeys L.words) :
    uniqueKeys ((L.add_word w).1).words ∧
    uniqueKeys ((L.remove_word k).1).words := by
  constructor
  · unfold Lesson.add_word
    by_cases hc : L.words.any (fun x => decide (x.chinese = w.chinese))
    · simp only [hc, if_true]
      exact h
    · simp only [hc, if_false, Bool.false_eq_true]
      unfold uniqueKeys at h ⊢
      rw [List.pairwise_append]
      refine ⟨h, List.pairwise_singleton _ _, ?_⟩
      intro a ha b hb
      simp only [List.mem_singleton] at hb
      subst hb
      simp only [List.any_eq_true, decide_eq_true_eq, not_exists] at hc
      intro hab
      exact hc a ⟨ha, hab⟩
  · exact h.sublist (removeFirst_sublist L.words k)

/-- Witness for C7 at a concrete unique-keyed lesson. -/
theorem c7_witness :
    uniqueKeys ((Lesson.add_word
      { name := .str "L", description := .str "", words :=
          [{ chinese := .str "a", pinyin := .str "", english := .str "" }],
        is_valid_json := .bool true, filename := none }
      { chinese := .str "b", pinyin := .str "", english := .str "" }).1).words :=
  (c7_preservation
    { name := .str "L", description := .str "", words :=
        [{ chinese := .str "a", pinyin := .str "", english := .str "" }],
      is_valid_json := .bool true, filename := none }
    { chinese := .str "b", pinyin := .str "", english := .str "" } "a" (by decide)).1

/-- C8: in the add-word flow with a failing save, every path leaves the
word list of the current lesson unchanged: validation failure, duplicate
rejection and `add_word` refusal never mutate it, and after a failed save
the appended word (the only one with its key, since duplicates were
rejected) is removed again by the compensating `remove_word`.  The
hypothesis reflects the declared `str` type of the lesson name (every
lesson reachable in the flow satisfies it). -/
theorem c8_rollback (p t : String → String) (L : Lesson) (text : String)
    (h : ∃ s, L.name = JValue.str s) :
    ((MainController.add_word_to_lesson p t false (some L) text).1).map Lesson.words
      = some L.words := by
  obtain ⟨s, hs⟩ := h
  unfold MainController.add_word_to_lesson
  by_cases hv : MainController.validate_chinese_text text
  · by_cases hd : L.words.any (fun w => decide (w.chinese = JValue.str text))
    · simp [hv, hd]
    · have hc : (MainController.create_word_from_chinese p t text).chinese
          = JValue.str text := rfl
      have hrm : removeFirst
          (L.words ++ [MainController.create_word_from_chinese p t text]) text
          = (L.words, true) := by
        refine removeFirst_append_unmatched _ _ _ ?_ rfl
        intro w hw hh
        simp only [List.any_eq_true, decide_eq_true_eq, not_exists] at hd
        exact hd w ⟨hw, hh⟩
      by_cases hf : LessonManager.falsyFilename L.filename
      · simp [hv, hd, Lesson.add_word, hc, LessonManager.save_lesson,
              LessonManager.deriveStep, hf, hs, Lesson.remove_word, hrm]
      · simp [hv, hd, Lesson.add_word, hc, LessonManager.save_lesson,
              LessonManager.deriveStep, hf, hs, Lesson.remove_word, hrm]
  · simp [hv]

/-- Witness for C8 at a concrete lesson and input. -/
theorem c8_witness :
    ((MainController.add_word_to_lesson (fun x => x) (fun x => x) false
      (some { name := .str "X", description := .str "", words := [],
              is_valid_json := .bool true, filename := none }) "你好").1).map
      Lesson.words = some [] :=
  c8_rollback (fun x => x) (fun x => x)
    { name := .str "X", description := .str "", words := [],
      is_valid_json := .bool true, filename := none } "你好" ⟨"X", rfl⟩

/-- C9: the mapping round-trip reproduces the name, the description, the
word sequence (in order) and even the validity flag of a lesson; only the
`filename` field is replaced by the argument of `from_map`. -/
theorem c9_roundtrip (L : Lesson) (fn : Option String) :
    Lesson.from_dict L.to_dict fn =
      .ok { name := L.name, description := L.description, words := L.words,
            is_valid_json := L.is_valid_json, filename := fn } := by
  have hW : wordArg (dget L.to_dict "words" (.arr []))
      = .ok (L.words.map Word.to_dict) := wordList_map_to_dict L.words
  unfold Lesson.from_dict
  rw [hW]
  have hwords : (L.words.map Word.to_dict).map Word.from_dict = L.words := by
    rw [List.map_map]
    exact List.map_id L.words
  have hname : dget L.to_dict "name" (.str "Unknown Lesson") = L.name := rfl
  have hdesc : dget L.to_dict "description" (.str "") = L.description := rfl
  have hvalid : dget L.to_dict "is_valid_json" (.bool true) = L.is_valid_json := rfl
  simp [hwords, hname, hdesc, hvalid]

end ChineseLangHelper
